import Mathlib

/-!
Shallow embedding of `vizee/dwm-status` (`src/main.rs`) and verification of
its specification claims.

The program samples CPU load, memory usage and (in extended mode) audio
volume, formats them into one status line, and publishes that line as the
X11 root window name.  External collaborators (sysinfo, alsa, Xlib, chrono)
are modelled as environments supplying the values their calls would return;
the program logic itself is transcribed function by function.
-/

namespace DwmStatus

/-- Left-pad a decimal rendering to a minimum field width with spaces, as
Rust's width specifier (`{:2}` / `{:3}`) does for numeric arguments. -/
def padLeft (w : Nat) (s : String) : String :=
  String.mk (List.replicate (w - s.length) ' ') ++ s

/-- Round `num / den` (for `den > 0`) to the nearest natural number, ties to
even — the rounding Rust's fixed-precision float formatting performs.  Used
to model `format!("{:.1}", mb as f64 / 1024f64)`: for `mb < 2^53` the `f64`
value is exact (division by a power of two), so formatting rounds the exact
rational, which is what this function computes. -/
def rndNat (num den : Nat) : Nat :=
  let q := num / den
  let r := num % den
  if 2 * r < den then q
  else if den < 2 * r then q + 1
  else if q % 2 = 0 then q else q + 1

/-- Round `num / den` (for `den > 0`) to the nearest integer, ties to even —
the rounding Rust's `{:.0}` float formatting performs, applied to the exact
rational value. -/
def rndInt (num den : Int) : Int :=
  let q := Int.ediv num den
  let r := num - q * den
  if 2 * r < den then q
  else if den < 2 * r then q + 1
  else if Int.emod q 2 = 0 then q else q + 1

/-- CPU field of `load_sys_stat` (src/main.rs:102):
`format!("{:2.0}%", status.sys_stat.global_cpu_info().cpu_usage())`,
modelled at nonnegative integer utilization percentages, where the
precision-0 rounding of the `f32` is the identity. -/
def cpuFmt (usage : Nat) : String :=
  padLeft 2 (toString usage) ++ "%"

/-- Memory field of `load_sys_stat` (src/main.rs:104-115).  `used` is the
used memory in kilobytes (`u64`).  The closure: if `used > 1024`, divide by
1024 (integer division) switching the unit to MB, and if the MB value is
`>= 1000`, return `format!("{:.1}GB", used as f64 / 1024f64)`; otherwise
`format!("{:3}{}", used, unit)`.  The one-decimal rendering is modelled with
`rndNat` (exact for MB values below `2^53`, i.e. whenever `used < 2^63`). -/
def memFmt (used : Nat) : String :=
  if used > 1024 then
    let mb := used / 1024
    if mb ≥ 1000 then
      let t := rndNat (10 * mb) 1024
      toString (t / 10) ++ "." ++ toString (t % 10) ++ "GB"
    else
      padLeft 3 (toString mb) ++ "MB"
  else
    padLeft 3 (toString used) ++ "KB"

/-- Status record of src/main.rs:60-67.  The `sys_stat : System` handle is
external-collaborator state (the sysinfo sampler); the values it yields are
supplied through the tick environment instead. -/
structure Status where
  time : String
  cpu : String
  mem : String
  vol : String
  should_update : Bool
deriving DecidableEq

/-- Composition of the published line in `main` (src/main.rs:160-171):
extended mode formats `"[{}|{}] ({}) {}"` from cpu, mem, vol, time; normal
mode formats `"[{}|{}] {}"` from cpu, mem, time. -/
def composeStatus (full : Bool) (st : Status) : String :=
  if full then
    "[" ++ st.cpu ++ "|" ++ st.mem ++ "] (" ++ st.vol ++ ") " ++ st.time
  else
    "[" ++ st.cpu ++ "|" ++ st.mem ++ "] " ++ st.time


/-! ### Volume sampler (`load_snd_vol`, src/main.rs:69-98)

The alsa collaborator is modelled by the values its calls would return:
`Mixer::new` either fails or yields a mixer, `find_selem` either fails or
yields the Master element, whose playback volume range is `(volMin, volMax)`
and whose channels answer `has_playback_channel`, `get_playback_switch` and
`get_playback_volume` (the latter two fallibly, hence `Option`). -/

/-- One `SelemChannelId`: whether the Master element has it as a playback
channel, and the results `get_playback_switch` / `get_playback_volume`
would return for it (`none` = `Err`). -/
structure Channel where
  hasPlayback : Bool
  sw : Option Int
  vol : Option Int
deriving DecidableEq

/-- Master selem as seen by `load_snd_vol`: its playback volume range and
the list of channels `SelemChannelId::all()` iterates over. -/
structure Master where
  volMin : Int
  volMax : Int
  channels : List Channel
deriving DecidableEq

/-- Result of `Mixer::new("default", false)` composed with
`find_selem(Master)`: `none` = mixer open failed, `some none` = master
element not found. -/
structure SndEnv where
  mixer : Option (Option Master)
deriving DecidableEq

/-- The channel loop of `load_snd_vol` (src/main.rs:77-87): for each
playback channel add `vol_max - vol_min` to `total`; query the playback
switch (`?` aborts on error); skip the rest when the switch is 0; query the
playback volume (`?` aborts on error) and add `vol - vol_min` to `cur`.
Returns `some (total, cur)` or `none` when a performed query failed. -/
def volLoop (volMin volMax : Int) : List Channel → Int → Int → Option (Int × Int)
  | [], total, cur => some (total, cur)
  | ch :: cs, total, cur =>
    if ch.hasPlayback then
      let total := total + (volMax - volMin)
      match ch.sw with
      | none => none
      | some sw =>
        if sw = 0 then
          volLoop volMin volMax cs total cur
        else
          match ch.vol with
          | none => none
          | some vol => volLoop volMin volMax cs total (cur + (vol - volMin))
    else
      volLoop volMin volMax cs total cur

/-- `format!("{:.0}%", (cur * 100) as f64 / total as f64)`
(src/main.rs:91), modelled as exact rational rounding to the nearest
integer, ties to even (the rounding `{:.0}` performs on the `f64`
quotient; exact whenever `0 ≤ cur ≤ total < 2^45`, the regime the claims
establish).  For `total = 0` the `f64` quotient is non-finite and Rust
prints its name; that branch is unreachable under the claims' premises. -/
def fmtPct (cur total : Int) : String :=
  if total = 0 then (if cur > 0 then "inf%" else "-inf%")
  else toString (rndInt (cur * 100) total) ++ "%"

/-- Body of `load_snd_vol` (src/main.rs:69-98) producing the `vol` string:
`"E"` when the mixer cannot be opened, when Master is missing, or when the
channel loop aborted on a query error; the dash-slash-dash sentinel when
the accumulated `cur` is zero; otherwise the rounded percentage. -/
def sndVolString (env : SndEnv) : String :=
  match env.mixer with
  | none => "E"
  | some none => "E"
  | some (some m) =>
    match volLoop m.volMin m.volMax m.channels 0 0 with
    | none => "E"
    | some (total, cur) =>
      if cur = 0 then "-/-" else fmtPct cur total

/-- `load_snd_vol` as a `Status` transformer (src/main.rs:69): stores the
computed string into `status.vol`. -/
def load_snd_vol (env : SndEnv) (st : Status) : Status :=
  { st with vol := sndVolString env }

/-! Claim-side descriptions of the accumulators, used to compare the loop
against the spec's words. -/

/-- Claim-side count of playback-capable channels. -/
def countPlayback : List Channel → Nat
  | [] => 0
  | ch :: cs => (if ch.hasPlayback then 1 else 0) + countPlayback cs

/-- Claim-side test: the channel is playback-capable and its playback
switch answered with a nonzero (on) value. -/
def chanUnmuted (ch : Channel) : Bool :=
  ch.hasPlayback && (match ch.sw with | some s => s != 0 | none => false)

/-- Claim-side sum of `vol - volMin` over unmuted playback channels. -/
def sumUnmuted (volMin : Int) : List Channel → Int
  | [] => 0
  | ch :: cs =>
    (if chanUnmuted ch then ch.vol.getD 0 - volMin else 0) + sumUnmuted volMin cs

/-- Every query the loop performs on the channel succeeds: the switch
query answers, and when it answers "on" the volume query answers too. -/
def chanOk (ch : Channel) : Bool :=
  !ch.hasPlayback ||
    match ch.sw with
    | none => false
    | some s => if s = 0 then true else ch.vol.isSome

/-- The volume the channel would report lies within the element's range. -/
def chanVolInRange (volMin volMax : Int) (ch : Channel) : Bool :=
  match ch.vol with
  | none => true
  | some v => volMin ≤ v && v ≤ volMax

/-! ### Refresh scheduler (`load_sys_stat`, `refresh_status`, `sig_user`) -/

/-- Environment of one `refresh_status` evaluation: what `chrono::Local::now()`
reports (`timestamp()` and the `"%m/%d %H:%M"` rendering), what the sysinfo
sampler would report (cpu utilization percentage and used memory in KB), and
the alsa state. -/
structure TickEnv where
  nowUts : Int
  nowFmt : String
  cpuUsage : Nat
  memUsed : Nat
  snd : SndEnv
deriving DecidableEq

/-- `load_sys_stat` (src/main.rs:100-116): refresh the sysinfo snapshot and
store the formatted cpu and mem fields. -/
def load_sys_stat (env : TickEnv) (st : Status) : Status :=
  { st with cpu := cpuFmt env.cpuUsage, mem := memFmt env.memUsed }

/-- `refresh_status` (src/main.rs:118-133).  `full` is the value the
`FULL_STATUS` atomic reads as during this evaluation.  Rust's `%` on `i64`
is truncating remainder, `Int.tmod`. -/
def refresh_status (env : TickEnv) (full : Bool) (st : Status) (force : Bool) : Status :=
  let st :=
    if force || Int.tmod env.nowUts 60 = 0 then
      { st with time := env.nowFmt, should_update := true }
    else st
  let st :=
    if full then
      { load_snd_vol env.snd st with should_update := true }
    else st
  if force || Int.tmod env.nowUts 3 = 0 then
    { load_sys_stat env st with should_update := true }
  else st

/-- `sig_user` (src/main.rs:142-144): the SIGUSR1 handler stores the logical
negation of the current `FULL_STATUS` value. -/
def sig_user (full : Bool) : Bool := !full

/-! ### Display publisher (`set_root_name`, src/main.rs:37-58)

`ONCE_INIT : Once`, `PRI_DISPLAY` and `ROOT_WID` are process globals; they
are threaded explicitly as `XState`.  Xlib is modelled by the values its
calls would return, and each call records the Xlib requests it issued as an
effect trace. -/

/-- Xlib requests observable from `set_root_name`. -/
inductive XEffect where
  | openDisplay
  | defaultScreen
  | rootWindow
  | storeName (name : String)
  | flush
  | eprintLine (msg : String)
deriving DecidableEq

/-- Xlib collaborator: the handle `XOpenDisplay(null)` would return (`none`
models a null pointer), the default screen number and its root window id. -/
structure XEnv where
  openResult : Option Nat
  screen : Int
  root : Nat
deriving DecidableEq

/-- The publisher's process-global state: whether `ONCE_INIT` has run, and
the cached `PRI_DISPLAY` handle (0 = null) and `ROOT_WID`. -/
structure XState where
  onceDone : Bool
  priDisplay : Nat
  rootWid : Nat
deriving DecidableEq

/-- Outcome of one `set_root_name` call: either the process exited (the
`process::exit(2)` inside the once-block) or it returned with updated
globals; both carry the trace of Xlib requests and diagnostics. -/
inductive XResult where
  | exited (code : Nat) (trace : List XEffect)
  | ok (st : XState) (trace : List XEffect)
deriving DecidableEq

/-- `set_root_name` (src/main.rs:42-58): on the first call the once-block
opens the display (exiting with code 2 after one diagnostic line if that
fails), resolves the default screen and its root window, and caches handle
and window; every call then issues `XStoreName` with the given name
followed by `XFlush`. -/
def set_root_name (env : XEnv) (st : XState) (name : String) : XResult :=
  if st.onceDone then
    .ok st [.storeName name, .flush]
  else
    match env.openResult with
    | none =>
      .exited 2 [.openDisplay, .eprintLine "unable to open display"]
    | some d =>
      .ok { onceDone := true, priDisplay := d, rootWid := env.root }
        [.openDisplay, .defaultScreen, .rootWindow, .storeName name, .flush]

/-- Effect trace of a run of already-initialized `set_root_name` calls:
store each name, flush after each. -/
def storeFlush : List String → List XEffect
  | [] => []
  | n :: ns => XEffect.storeName n :: XEffect.flush :: storeFlush ns

/-- A sequence of `set_root_name` calls with the given titles, threading the
global state and concatenating the traces; `none` when a call exited the
process. -/
def publishSeq (env : XEnv) (st : XState) : List String → Option (XState × List XEffect)
  | [] => some (st, [])
  | n :: ns =>
    match set_root_name env st n with
    | .exited _ _ => none
    | .ok st' tr =>
      match publishSeq env st' ns with
      | none => none
      | some (st'', tr') => some (st'', tr ++ tr')

/-- `update_status_text` (src/main.rs:135-140): push a terminating NUL onto
the composed string and publish it via `set_root_name`. -/
def update_status_text (env : XEnv) (xst : XState) (s : String) : XResult :=
  set_root_name env xst (s.push (Char.ofNat 0))

/-! ### Main loop (src/main.rs:160-174) -/

/-- Environment of one iteration of the `loop` in `main`: the Xlib state for
the publish, the `FULL_STATUS` values read at the publish and at the
refresh (a SIGUSR1 may arrive between the two reads), and the tick
environment of the `refresh_status` call after the sleep. -/
structure IterEnv where
  x : XEnv
  fullPub : Bool
  fullRef : Bool
  tick : TickEnv
deriving DecidableEq

/-- State carried around the `loop` in `main`: the `Status` record and the
publisher globals. -/
structure LoopState where
  status : Status
  x : XState
deriving DecidableEq

/-- One iteration of the `loop` in `main` (src/main.rs:160-174): if
`should_update`, compose (extended or normal per `FULL_STATUS`) and publish,
then clear `should_update`; sleep; `refresh_status` with `force = false`.
`Except.error code` is the process exiting with `code` from inside the
publish. -/
def loopStep (env : IterEnv) (s : LoopState) : Except Nat LoopState :=
  let published : Except Nat (Status × XState) :=
    if s.status.should_update then
      match update_status_text env.x s.x (composeStatus env.fullPub s.status) with
      | .exited code _ => .error code
      | .ok xst _ => .ok ({ s.status with should_update := false }, xst)
    else
      .ok (s.status, s.x)
  match published with
  | .error code => .error code
  | .ok (st, xst) =>
    .ok { status := refresh_status env.tick env.fullRef st false, x := xst }

/-- Finitely many iterations of the `loop` in `main`.  The loop has no
`break` or `return`: the only way it stops is a `process::exit` inside the
publish, surfaced as `Except.error`. -/
def loopRun : List IterEnv → LoopState → Except Nat LoopState
  | [], s => .ok s
  | e :: es, s =>
    match loopStep e s with
    | .error code => .error code
    | .ok s' => loopRun es s'

/-- Modelled from the spec: the one-shot build variant of `main` is code of
this repository that is not under `src/` (only the looping variant is).
Per the spec, a single optional positional argument, if present, is
published verbatim as the title and the process exits immediately without
entering the refresh loop.  The second component records whether the
refresh loop is entered. -/
def main_one_shot (args : List String) (env : XEnv) (st : XState) : Option XResult × Bool :=
  match args with
  | [title] => (some (set_root_name env st title), false)
  | _ => (none, true)

/-! ## Lemmas about the channel loop -/

/-- Running the channel loop over a prefix whose queries all succeed
accumulates `(max - min)` per playback channel into `total` and the
unmuted levels into `cur`, then continues with the rest of the list. -/
lemma volLoop_append_ok (mn mx : Int) (pre : List Channel) :
    ∀ (rest : List Channel) (total cur : Int), pre.all chanOk = true →
      volLoop mn mx (pre ++ rest) total cur =
        volLoop mn mx rest (total + (countPlayback pre : Int) * (mx - mn))
          (cur + sumUnmuted mn pre) := by
  induction pre with
  | nil =>
    intro rest total cur _
    simp [countPlayback, sumUnmuted]
  | cons ch pre ih =>
    intro rest total cur h
    simp only [List.all_cons, Bool.and_eq_true] at h
    obtain ⟨hch, hpre⟩ := h
    obtain ⟨hpb, sw, vol⟩ := ch
    cases hpb with
    | false =>
      simpa [volLoop, countPlayback, sumUnmuted, chanUnmuted] using
        ih rest total cur hpre
    | true =>
      cases sw with
      | none => simp [chanOk] at hch
      | some s =>
        by_cases hs : s = 0
        · have harith :
              total + ((countPlayback (⟨true, some s, vol⟩ :: pre) : Nat) : Int) * (mx - mn) =
                total + (mx - mn) + (countPlayback pre : Int) * (mx - mn) := by
            simp [countPlayback]; ring
          have hsum :
              sumUnmuted mn (⟨true, some s, vol⟩ :: pre) = sumUnmuted mn pre := by
            simp [sumUnmuted, chanUnmuted, hs]
          rw [List.cons_append]
          show volLoop mn mx (⟨true, some s, vol⟩ :: (pre ++ rest)) total cur = _
          rw [harith, hsum]
          simpa [volLoop, hs] using ih rest (total + (mx - mn)) cur hpre
        · have hv : vol.isSome = true := by
            simpa [chanOk, hs] using hch
          obtain ⟨v, rfl⟩ := Option.isSome_iff_exists.mp hv
          have harith :
              total + ((countPlayback (⟨true, some s, some v⟩ :: pre) : Nat) : Int) * (mx - mn) =
                total + (mx - mn) + (countPlayback pre : Int) * (mx - mn) := by
            simp [countPlayback]; ring
          have hsum :
              cur + sumUnmuted mn (⟨true, some s, some v⟩ :: pre) =
                cur + (v - mn) + sumUnmuted mn pre := by
            simp [sumUnmuted, chanUnmuted, hs]; ring
          rw [List.cons_append]
          show volLoop mn mx (⟨true, some s, some v⟩ :: (pre ++ rest)) total cur = _
          rw [harith, hsum]
          simpa [volLoop, hs] using ih rest (total + (mx - mn)) (cur + (v - mn)) hpre

/-- When every query succeeds, the channel loop returns exactly the
claim-side accumulators. -/
lemma volLoop_ok (mn mx : Int) (cs : List Channel) (total cur : Int)
    (h : cs.all chanOk = true) :
    volLoop mn mx cs total cur =
      some (total + (countPlayback cs : Int) * (mx - mn),
            cur + sumUnmuted mn cs) := by
  simpa [volLoop] using volLoop_append_ok mn mx cs [] total cur h

/-- The `total` accumulator is monotone along a successful loop when the
volume range is nontrivial, strictly so as soon as `cur` grew. -/
lemma volLoop_total_mono (mn mx : Int) (h : mn < mx) :
    ∀ (cs : List Channel) (total cur t c : Int),
      volLoop mn mx cs total cur = some (t, c) →
      total ≤ t ∧ (cur < c → total < t) := by
  intro cs
  induction cs with
  | nil =>
    intro total cur t c hl
    simp only [volLoop, Option.some.injEq, Prod.mk.injEq] at hl
    obtain ⟨rfl, rfl⟩ := hl
    exact ⟨le_refl _, fun hc => absurd hc (lt_irrefl _)⟩
  | cons ch cs ih =>
    intro total cur t c hl
    obtain ⟨hpb, sw, vol⟩ := ch
    cases hpb with
    | false =>
      simp only [volLoop] at hl
      exact ih total cur t c hl
    | true =>
      cases sw with
      | none => simp [volLoop] at hl
      | some s =>
        by_cases hs : s = 0
        · simp only [volLoop, hs, if_true, if_pos rfl] at hl
          have := ih (total + (mx - mn)) cur t c (by simpa using hl)
          constructor
          · linarith [this.1]
          · intro _; linarith [this.1]
        · cases vol with
          | none => simp [volLoop, hs] at hl
          | some v =>
            simp only [volLoop, hs, if_neg hs] at hl
            have := ih (total + (mx - mn)) (cur + (v - mn)) t c (by simpa using hl)
            constructor
            · linarith [this.1]
            · intro _; linarith [this.1]

/-- Along a successful loop over channels whose reported volumes lie in the
element's range, `cur` never decreases, and if it grew the range must be
nontrivial. -/
lemma volLoop_cur_mono (mn mx : Int) :
    ∀ (cs : List Channel) (total cur t c : Int),
      volLoop mn mx cs total cur = some (t, c) →
      cs.all (chanVolInRange mn mx) = true →
      cur ≤ c ∧ (cur < c → mn < mx) := by
  intro cs
  induction cs with
  | nil =>
    intro total cur t c hl _
    simp only [volLoop, Option.some.injEq, Prod.mk.injEq] at hl
    obtain ⟨rfl, rfl⟩ := hl
    exact ⟨le_refl _, fun hc => absurd hc (lt_irrefl _)⟩
  | cons ch cs ih =>
    intro total cur t c hl hr
    simp only [List.all_cons, Bool.and_eq_true] at hr
    obtain ⟨hrch, hrcs⟩ := hr
    obtain ⟨hpb, sw, vol⟩ := ch
    cases hpb with
    | false =>
      simp only [volLoop] at hl
      exact ih total cur t c hl hrcs
    | true =>
      cases sw with
      | none => simp [volLoop] at hl
      | some s =>
        by_cases hs : s = 0
        · simp only [volLoop, hs, if_pos rfl] at hl
          exact ih (total + (mx - mn)) cur t c (by simpa using hl) hrcs
        · cases vol with
          | none => simp [volLoop, hs] at hl
          | some v =>
            simp only [volLoop, hs, if_neg hs] at hl
            have hv : mn ≤ v ∧ v ≤ mx := by
              simpa [chanVolInRange] using hrch
            have := ih (total + (mx - mn)) (cur + (v - mn)) t c (by simpa using hl) hrcs
            constructor
            · linarith [this.1, hv.1]
            · intro hc
              rcases lt_or_eq_of_le hv.1 with hlt | heq
              · linarith [hv.2]
              · exact this.2 (by omega)

/-- A list with no playback-capable channels performs no queries and leaves
both accumulators unchanged. -/
lemma volLoop_no_playback (mn mx : Int) :
    ∀ (cs : List Channel) (total cur : Int), countPlayback cs = 0 →
      volLoop mn mx cs total cur = some (total, cur) := by
  intro cs
  induction cs with
  | nil => intro total cur _; simp [volLoop]
  | cons ch cs ih =>
    intro total cur h
    obtain ⟨hpb, sw, vol⟩ := ch
    cases hpb with
    | false =>
      simp [countPlayback] at h
      simpa [volLoop] using ih total cur h
    | true => simp [countPlayback] at h

/-! ## Lemmas about the publisher and the main loop -/

/-- The only exit `set_root_name` can perform is `process::exit(2)`. -/
lemma set_root_name_exit_code (env : XEnv) (st : XState) (name : String)
    (code : Nat) (tr : List XEffect)
    (h : set_root_name env st name = .exited code tr) : code = 2 := by
  unfold set_root_name at h
  by_cases ho : st.onceDone
  · simp [ho] at h
  · cases hor : env.openResult with
    | none =>
      simp [ho, hor] at h
      omega
    | some d => simp [ho, hor] at h

/-- The only exit a loop iteration can perform is `process::exit(2)` from
inside the publish. -/
lemma loopStep_error_code (env : IterEnv) (s : LoopState) (code : Nat)
    (h : loopStep env s = .error code) : code = 2 := by
  unfold loopStep at h
  by_cases hu : s.status.should_update
  · simp only [hu, if_true] at h
    cases hx : update_status_text env.x s.x (composeStatus env.fullPub s.status) with
    | exited c tr =>
      simp only [hx, Except.error.injEq] at h
      have := set_root_name_exit_code env.x s.x _ c tr hx
      omega
    | ok xst tr => simp [hx] at h
  · simp [hu] at h

/-- Publishing from an already-initialized state just stores and flushes
each title in turn, leaving the cached globals untouched. -/
lemma publishSeq_done (env : XEnv) :
    ∀ (ns : List String) (st : XState), st.onceDone = true →
      publishSeq env st ns = some (st, storeFlush ns) := by
  intro ns
  induction ns with
  | nil => intro st h; simp [publishSeq, storeFlush]
  | cons n ns ih =>
    intro st h
    simp [publishSeq, set_root_name, h, storeFlush, ih st h]

/-- Already-initialized publishing issues no `XOpenDisplay` request. -/
lemma storeFlush_no_open :
    ∀ ns : List String, (storeFlush ns).count XEffect.openDisplay = 0 := by
  intro ns
  induction ns with
  | nil => rfl
  | cons n ns ih => simp [storeFlush, List.count_cons, ih]

/-! ## Claims -/

/-- C1: for every status whose cpu, mem, vol and time fields are fixed
strings, the composed display string is exactly `[<cpu>|<mem>] (<vol>) <time>`
in extended mode and `[<cpu>|<mem>] <time>` in normal mode; with cpu
formatted from 7, mem formatted from 512 KB and time `08/10 12:00`, the
normal-mode string is exactly `[ 7%|512KB] 08/10 12:00` and the
extended-mode string with vol sentinel `E` is exactly
`[ 7%|512KB] (E) 08/10 12:00`. -/
theorem c1_composition_format :
    (∀ (cpu mem vol time : String) (b : Bool),
      composeStatus true ⟨time, cpu, mem, vol, b⟩ =
        "[" ++ cpu ++ "|" ++ mem ++ "] (" ++ vol ++ ") " ++ time ∧
      composeStatus false ⟨time, cpu, mem, vol, b⟩ =
        "[" ++ cpu ++ "|" ++ mem ++ "] " ++ time) ∧
    (∀ (vol : String) (b : Bool),
      composeStatus false ⟨"08/10 12:00", cpuFmt 7, memFmt 512, vol, b⟩ =
        "[ 7%|512KB] 08/10 12:00") ∧
    (∀ b : Bool,
      composeStatus true ⟨"08/10 12:00", cpuFmt 7, memFmt 512, "E", b⟩ =
        "[ 7%|512KB] (E) 08/10 12:00") :=
  ⟨fun _ _ _ _ _ => ⟨rfl, rfl⟩, fun _ _ => rfl, fun _ => rfl⟩

/-- C2: the memory formatter renders `used ≤ 1024` as the unchanged value
left-padded to width 3 followed by `KB`; for `used > 1024` it divides by
1024 to an MB value, and renders MB/1024 with exactly one decimal digit
followed by `GB` when that MB value reaches the GB threshold (1000 in this
source), otherwise the MB value left-padded to width 3 followed by `MB`.
The bound keeps the MB value below `2^53`, where the embedded one-decimal
rounding coincides with the `f64` formatting. -/
theorem c2_mem_formatter (used : Nat) (_hu : used < 2 ^ 63) :
    (used ≤ 1024 → memFmt used = padLeft 3 (toString used) ++ "KB") ∧
    (1024 < used →
      (1000 ≤ used / 1024 →
        memFmt used =
          toString (rndNat (10 * (used / 1024)) 1024 / 10) ++ "." ++
            toString (rndNat (10 * (used / 1024)) 1024 % 10) ++ "GB") ∧
      (used / 1024 < 1000 →
        memFmt used = padLeft 3 (toString (used / 1024)) ++ "MB")) := by
  refine ⟨fun h => ?_, fun h => ⟨fun hg => ?_, fun hl => ?_⟩⟩
  · simp [memFmt, Nat.not_lt.mpr h]
  · simp [memFmt, h, hg]
  · simp [memFmt, h, Nat.not_le.mpr hl]

/-- Witness for C2 at concrete inputs: 512 KB renders as `512KB`, 2048 KB
as `  2MB`, 1536000 KB as `1.5GB`. -/
theorem c2_mem_formatter_witness :
    memFmt 512 = "512KB" ∧ memFmt 2048 = "  2MB" ∧ memFmt 1536000 = "1.5GB" :=
  ⟨by rw [(c2_mem_formatter 512 (by norm_num)).1 (by norm_num)]; decide,
   by rw [((c2_mem_formatter 2048 (by norm_num)).2 (by norm_num)).2 (by norm_num)]; decide,
   by rw [((c2_mem_formatter 1536000 (by norm_num)).2 (by norm_num)).1 (by norm_num)]; decide⟩

/-- C6: the SIGUSR1 handler maps the mode flag to its logical negation, so
applying it twice returns the flag — and the composed format — to the
original value. -/
theorem c6_toggle_involutive :
    ∀ (b : Bool) (st : Status),
      sig_user b = !b ∧ sig_user (sig_user b) = b ∧
      composeStatus (sig_user (sig_user b)) st = composeStatus b st := by
  intro b st
  cases b <;> exact ⟨rfl, rfl, rfl⟩

/-- C5: on a non-forced evaluation at timestamp `t`, the time field is
refreshed exactly when `t % 60 = 0` and the cpu and mem fields exactly when
`t % 3 = 0`; off both boundaries (extended mode off, so no volume refresh)
the whole status, its dirty flag included, is unchanged. -/
theorem c5_refresh_cadence (env : TickEnv) (st : Status) :
    (Int.tmod env.nowUts 60 = 0 →
      (refresh_status env false st false).time = env.nowFmt) ∧
    (Int.tmod env.nowUts 60 ≠ 0 →
      (refresh_status env false st false).time = st.time) ∧
    (Int.tmod env.nowUts 3 = 0 →
      (refresh_status env false st false).cpu = cpuFmt env.cpuUsage ∧
      (refresh_status env false st false).mem = memFmt env.memUsed) ∧
    (Int.tmod env.nowUts 3 ≠ 0 →
      (refresh_status env false st false).cpu = st.cpu ∧
      (refresh_status env false st false).mem = st.mem) ∧
    (Int.tmod env.nowUts 60 ≠ 0 → Int.tmod env.nowUts 3 ≠ 0 →
      refresh_status env false st false = st) := by
  by_cases h60 : Int.tmod env.nowUts 60 = 0 <;>
    by_cases h3 : Int.tmod env.nowUts 3 = 0 <;>
      simp [refresh_status, load_sys_stat, h60, h3]

/-- Witness for C5: at timestamp 61 (off both boundaries) a concrete status
is unchanged; at timestamp 120 the time field takes the freshly formatted
value. -/
theorem c5_refresh_cadence_witness :
    refresh_status ⟨61, "01/01 00:01", 5, 100, ⟨none⟩⟩ false
        ⟨"t0", "c0", "m0", "v0", false⟩ false = ⟨"t0", "c0", "m0", "v0", false⟩ ∧
    (refresh_status ⟨120, "01/01 00:02", 5, 100, ⟨none⟩⟩ false
        ⟨"t0", "c0", "m0", "v0", false⟩ false).time = "01/01 00:02" :=
  ⟨(c5_refresh_cadence ⟨61, "01/01 00:01", 5, 100, ⟨none⟩⟩
      ⟨"t0", "c0", "m0", "v0", false⟩).2.2.2.2 (by decide) (by decide),
   (c5_refresh_cadence ⟨120, "01/01 00:02", 5, 100, ⟨none⟩⟩
      ⟨"t0", "c0", "m0", "v0", false⟩).1 (by decide)⟩

/-- C3: for every playback-capable channel of the master element,
`(max - min)` is accumulated into the running total regardless of mute
state, while `(level - min)` is accumulated into the running current sum
only when the channel's playback switch is on; a zero current sum reports
the dash-slash-dash sentinel, a nonzero one the rounded percentage
`round(cur * 100 / total)` followed by `%`.  Premises: every query the
loop performs succeeds, and reported volumes lie within the range. -/
theorem c3_volume_accumulation (m : Master)
    (hq : m.channels.all chanOk = true)
    (hr : m.channels.all (chanVolInRange m.volMin m.volMax) = true) :
    volLoop m.volMin m.volMax m.channels 0 0 =
      some ((countPlayback m.channels : Int) * (m.volMax - m.volMin),
            sumUnmuted m.volMin m.channels) ∧
    (sumUnmuted m.volMin m.channels = 0 →
      sndVolString ⟨some (some m)⟩ = "-/-") ∧
    (sumUnmuted m.volMin m.channels ≠ 0 →
      sndVolString ⟨some (some m)⟩ =
        toString (rndInt (sumUnmuted m.volMin m.channels * 100)
          ((countPlayback m.channels : Int) * (m.volMax - m.volMin))) ++ "%") := by
  have hloop := volLoop_ok m.volMin m.volMax m.channels 0 0 hq
  simp only [zero_add] at hloop
  refine ⟨hloop, fun h0 => ?_, fun hne => ?_⟩
  · simp [sndVolString, hloop, h0]
  · have hcur := volLoop_cur_mono m.volMin m.volMax m.channels 0 0 _ _ hloop hr
    have hcpos : 0 < sumUnmuted m.volMin m.channels :=
      lt_of_le_of_ne hcur.1 (Ne.symm hne)
    have hmm : m.volMin < m.volMax := hcur.2 hcpos
    have htot := volLoop_total_mono m.volMin m.volMax hmm m.channels 0 0 _ _ hloop
    have htpos : 0 < (countPlayback m.channels : Int) * (m.volMax - m.volMin) :=
      htot.2 hcpos
    simp [sndVolString, hloop, hne, fmtPct, ne_of_gt htpos]

/-- Witness for C3: two playback channels with range 0..100, one unmuted at
level 30, one muted at level 80, plus a non-playback channel: total 200,
current 30, reported percentage 15%. -/
theorem c3_volume_accumulation_witness :
    sndVolString ⟨some (some ⟨0, 100,
      [⟨true, some 1, some 30⟩, ⟨true, some 0, some 80⟩, ⟨false, none, none⟩]⟩)⟩
      = "15%" := by
  have h := (c3_volume_accumulation
    ⟨0, 100, [⟨true, some 1, some 30⟩, ⟨true, some 0, some 80⟩, ⟨false, none, none⟩]⟩
    (by decide) (by decide)).2.2 (by decide)
  rw [h]; decide

/-- C4: the volume sampler reports exactly the sentinel `E` when the mixer
cannot be opened, when the master element cannot be found, or when any
per-channel query it performs (playback switch, or playback volume of an
unmuted channel) fails, the error aborting the whole computation.  The
embedded sampler is a total function producing the sentinel string, so the
process keeps looping in every such case. -/
theorem c4_error_sentinel :
    sndVolString ⟨none⟩ = "E" ∧
    sndVolString ⟨some none⟩ = "E" ∧
    (∀ (mn mx : Int) (pre : List Channel) (ch : Channel) (post : List Channel),
      ch.hasPlayback = true → pre.all chanOk = true →
      ch.sw = none ∨ (∃ s, ch.sw = some s ∧ s ≠ 0 ∧ ch.vol = none) →
      sndVolString ⟨some (some ⟨mn, mx, pre ++ ch :: post⟩)⟩ = "E") := by
  refine ⟨rfl, rfl, ?_⟩
  intro mn mx pre ch post hpb hpre herr
  have hnone : volLoop mn mx (pre ++ ch :: post) 0 0 = none := by
    rw [volLoop_append_ok mn mx pre (ch :: post) 0 0 hpre]
    obtain ⟨hpb', sw, vol⟩ := ch
    simp only [show Channel.hasPlayback ⟨hpb', sw, vol⟩ = hpb' from rfl] at hpb
    subst hpb
    rcases herr with hsw | ⟨s, hsw, hs, hv⟩
    · simp only [show Channel.sw ⟨true, sw, vol⟩ = sw from rfl] at hsw
      subst hsw
      simp [volLoop]
    · simp only [show Channel.sw ⟨true, sw, vol⟩ = sw from rfl,
        show Channel.vol ⟨true, sw, vol⟩ = vol from rfl] at hsw hv
      subst hsw; subst hv
      simp [volLoop, hs]
  simp [sndVolString, hnone]

/-- Witness for C4: a playback channel whose switch query fails makes the
sampler report `E`. -/
theorem c4_error_sentinel_witness :
    sndVolString ⟨some (some ⟨0, 100, [⟨true, none, none⟩]⟩)⟩ = "E" :=
  c4_error_sentinel.2.2 0 100 [] ⟨true, none, none⟩ [] rfl (by decide) (Or.inl rfl)

/-- C10: the division by the accumulated total happens only in the branch
where the accumulated current sum is nonzero, and when every channel's
reported volume lies within the reported range, a nonzero current sum
forces a strictly positive total, so the divisor is never zero; with no
playback-capable channels the loop yields `(0, 0)` and the sampler reports
the dash-slash-dash sentinel without dividing. -/
theorem c10_division_guard (m : Master)
    (hr : m.channels.all (chanVolInRange m.volMin m.volMax) = true) :
    (∀ total cur : Int,
      volLoop m.volMin m.volMax m.channels 0 0 = some (total, cur) →
      (cur = 0 → sndVolString ⟨some (some m)⟩ = "-/-") ∧
      (cur ≠ 0 → 0 < total ∧
        sndVolString ⟨some (some m)⟩ = toString (rndInt (cur * 100) total) ++ "%")) ∧
    (countPlayback m.channels = 0 →
      volLoop m.volMin m.volMax m.channels 0 0 = some (0, 0) ∧
      sndVolString ⟨some (some m)⟩ = "-/-") := by
  constructor
  · intro total cur hloop
    refine ⟨fun h0 => by simp [sndVolString, hloop, h0], fun hne => ?_⟩
    have hcur := volLoop_cur_mono m.volMin m.volMax m.channels 0 0 _ _ hloop hr
    have hcpos : 0 < cur := lt_of_le_of_ne hcur.1 (Ne.symm hne)
    have hmm : m.volMin < m.volMax := hcur.2 hcpos
    have htot := volLoop_total_mono m.volMin m.volMax hmm m.channels 0 0 _ _ hloop
    have htpos : 0 < total := htot.2 hcpos
    exact ⟨htpos, by simp [sndVolString, hloop, hne, fmtPct, ne_of_gt htpos]⟩
  · intro h0
    have hloop := volLoop_no_playback m.volMin m.volMax m.channels 0 0 h0
    exact ⟨hloop, by simp [sndVolString, hloop]⟩

/-- Witness for C10: an unmuted channel at level 30 in range 0..100 gives a
positive total of 100 and a percentage report; a master with only a
non-playback channel reports the dash-slash-dash sentinel. -/
theorem c10_division_guard_witness :
    (0 < (100 : Int) ∧
      sndVolString ⟨some (some ⟨0, 100, [⟨true, some 1, some 30⟩]⟩)⟩ =
        toString (rndInt (30 * 100) 100) ++ "%") ∧
    sndVolString ⟨some (some ⟨0, 100, [⟨false, none, none⟩]⟩)⟩ = "-/-" :=
  ⟨((c10_division_guard ⟨0, 100, [⟨true, some 1, some 30⟩]⟩ (by decide)).1
      100 30 (by decide)).2 (by decide),
   ((c10_division_guard ⟨0, 100, [⟨false, none, none⟩]⟩ (by decide)).2
      (by decide)).2⟩

/-- C7: when the first publish cannot open the display connection, the
process terminates at once with the distinct non-zero exit status 2 after a
single diagnostic line on standard error, with exactly one connection
attempt and no retry; and no finite run of the infinite main loop ever
reaches an exit with code 0. -/
theorem c7_connect_failure_exit :
    (∀ (env : XEnv) (st : XState) (name : String),
      st.onceDone = false → env.openResult = none →
      set_root_name env st name =
        .exited 2 [.openDisplay, .eprintLine "unable to open display"] ∧
      [XEffect.openDisplay, XEffect.eprintLine "unable to open display"].count
          XEffect.openDisplay = 1 ∧
      (2 : Nat) ≠ 0) ∧
    (∀ (envs : List IterEnv) (s : LoopState), loopRun envs s ≠ .error 0) := by
  constructor
  · intro env st name hfresh hopen
    refine ⟨?_, by decide, by decide⟩
    simp [set_root_name, hfresh, hopen]
  · intro envs
    induction envs with
    | nil => intro s h; simp [loopRun] at h
    | cons e es ih =>
      intro s h
      unfold loopRun at h
      cases hstep : loopStep e s with
      | error c =>
        have := loopStep_error_code e s c hstep
        simp [hstep, Except.error.injEq] at h
        omega
      | ok s' =>
        rw [hstep] at h
        exact ih s' h

/-- Witness for C7: a fresh state whose display open fails exits with code
2, and a zero-iteration run of the loop is not an exit with code 0. -/
theorem c7_connect_failure_exit_witness :
    set_root_name ⟨none, 0, 0⟩ ⟨false, 0, 0⟩ "x" =
      .exited 2 [.openDisplay, .eprintLine "unable to open display"] ∧
    loopRun [] ⟨⟨"", "", "", "", false⟩, ⟨false, 0, 0⟩⟩ ≠ .error 0 :=
  ⟨(c7_connect_failure_exit.1 ⟨none, 0, 0⟩ ⟨false, 0, 0⟩ "x" rfl rfl).1,
   c7_connect_failure_exit.2 [] ⟨⟨"", "", "", "", false⟩, ⟨false, 0, 0⟩⟩⟩

/-- C8: across any sequence of publish calls starting from the fresh
process state, only the first performs the connection setup (open display,
resolve default screen and root window, cache both); the whole trace
contains exactly one open request; every call, the first included, stores
the given title on the root window and flushes; and an already-initialized
call returns the cached globals unchanged. -/
theorem c8_connect_once (env : XEnv) (st : XState) (d : Nat) (name : String)
    (ns : List String)
    (hfresh : st.onceDone = false) (hopen : env.openResult = some d) :
    publishSeq env st (name :: ns) =
      some ({ onceDone := true, priDisplay := d, rootWid := env.root },
        XEffect.openDisplay :: XEffect.defaultScreen :: XEffect.rootWindow ::
          XEffect.storeName name :: XEffect.flush :: storeFlush ns) ∧
    (XEffect.openDisplay :: XEffect.defaultScreen :: XEffect.rootWindow ::
        XEffect.storeName name :: XEffect.flush :: storeFlush ns).count
      XEffect.openDisplay = 1 ∧
    (∀ st' : XState, st'.onceDone = true →
      set_root_name env st' name = .ok st' [.storeName name, .flush]) := by
  refine ⟨?_, ?_, fun st' h => by simp [set_root_name, h]⟩
  · have hfirst : set_root_name env st name =
        .ok { onceDone := true, priDisplay := d, rootWid := env.root }
          [.openDisplay, .defaultScreen, .rootWindow, .storeName name, .flush] := by
      simp [set_root_name, hfresh, hopen]
    have hrest := publishSeq_done env ns
      { onceDone := true, priDisplay := d, rootWid := env.root } rfl
    simp [publishSeq, hfirst, hrest]
  · simp [List.count_cons, storeFlush_no_open ns]

/-- Witness for C8: two publishes from a fresh state open the display once,
then store and flush each title. -/
theorem c8_connect_once_witness :
    publishSeq ⟨some 7, 0, 99⟩ ⟨false, 0, 0⟩ ["a", "b"] =
      some (⟨true, 7, 99⟩,
        [.openDisplay, .defaultScreen, .rootWindow, .storeName "a", .flush,
         .storeName "b", .flush]) :=
  (c8_connect_once ⟨some 7, 0, 99⟩ ⟨false, 0, 0⟩ 7 "a" ["b"] rfl rfl).1

/-- C9: invoked with a single positional argument, the one-shot variant
publishes that argument verbatim as the root window title (storing it and
flushing) and does not enter the refresh loop. -/
theorem c9_one_shot (env : XEnv) (st : XState) (d : Nat) (arg : String)
    (hfresh : st.onceDone = false) (hopen : env.openResult = some d) :
    main_one_shot [arg] env st =
      (some (.ok { onceDone := true, priDisplay := d, rootWid := env.root }
          [.openDisplay, .defaultScreen, .rootWindow, .storeName arg, .flush]),
       false) := by
  simp [main_one_shot, set_root_name, hfresh, hopen]

/-- Witness for C9: invoking with argument `hello` stores the title `hello`
and reports that the loop is not entered. -/
theorem c9_one_shot_witness :
    main_one_shot ["hello"] ⟨some 1, 0, 42⟩ ⟨false, 0, 0⟩ =
      (some (.ok ⟨true, 1, 42⟩
          [.openDisplay, .defaultScreen, .rootWindow, .storeName "hello", .flush]),
       false) :=
  c9_one_shot ⟨some 1, 0, 42⟩ ⟨false, 0, 0⟩ 1 "hello" rfl rfl

end DwmStatus
